import Mathlib

/-!
# Session flow of the `wss` client (`src/App.js`, `src/components/Login.js`)

A shallow embedding of the four handlers of `App` (`handleSignUp`, `handleLogin`,
`handleLogout`, `fetchUser`), of the mount effect that derives the login flag from
`localStorage`, and of `handleSubmit` and the error line of the `Login` component.

Modelling conventions.

* A parsed response body is a `Json` value (what `response.json()` resolves to).
  A JavaScript value that may also be `undefined` is a `JSValue = Option Json`,
  with `none` standing for `undefined`.
* Every handler takes the session before the call and the outcome of the one
  network exchange it may perform, and returns the session after the call together
  with its completion: `.ok v` when the call (or the promise it returns) completes
  with value `v`, `.error e` when it throws (or the promise rejects). State
  changes made before a throw are kept, as in the source.
* A request is recorded when `fetch` accepts its arguments. Its address is the
  string handed to `fetch` (the browser's URL parsing and percent-encoding are not
  modelled); its headers are the header list `fetch` builds from the `headers`
  member, after the normalisation and the checks of the Fetch standard.
* What the `Login` component shows is what React renders for the children of its
  error line.
* Strings are sequences of code points.
* `console.log` calls have no effect on the session and are left out.
* Failures of the browser itself (storage quota, storage access denied) are
  outside the model.
-/

namespace Wss

/-! ## JavaScript values -/

/-- A number as far as this program can observe it: whether it is zero (the only
falsy numbers `JSON.parse` can produce are `0` and `-0`) and the text that
`Number.prototype.toString` gives for it. -/
structure JSNumber where
  isZero : Bool
  text : String

/-- The values `JSON.parse` can produce. The members of an object are listed in
source order. -/
inductive Json where
  | null
  | bool (b : Bool)
  | num (n : JSNumber)
  | str (s : String)
  | arr (items : List Json)
  | obj (members : List (String × Json))

/-- A JavaScript value of this program: a JSON value or `undefined` (`none`). -/
abbrev JSValue := Option Json

/-- The failures the handlers can end with. -/
inductive JSError where
  /-- A `TypeError` raised by the language or by a platform call. -/
  | typeError
  /-- The promise of `fetch` rejected (network failure). -/
  | fetchFailed
  /-- The promise of `response.json()` rejected (the body is not JSON). -/
  | syntaxError
  /-- React refused a child while rendering (an object is not a valid child). -/
  | invalidChild
deriving DecidableEq

/-- The own property `key` of a parsed object; a later member with the same name
overrides an earlier one, as in `JSON.parse`. -/
def ownProp (key : String) : List (String × Json) → Option Json
  | [] => none
  | (k, v) :: rest =>
    match ownProp key rest with
    | some w => some w
    | none => if k = key then some v else none

/-- Property read `v.key` for the keys this program reads (`token`, `id`,
`error`, `data`), none of which is defined on a built-in prototype: reading from
`null` throws a `TypeError`, an object gives its own property or `undefined`, and
every other value gives `undefined`. -/
def getProp (v : Json) (key : String) : Except JSError JSValue :=
  match v with
  | .null => .error .typeError
  | .obj members => .ok (ownProp key members)
  | _ => .ok none

/-- Truthiness (`ToBoolean`): `undefined`, `null`, `false`, zero and the empty
string are falsy, everything else (every array and object included) is truthy. -/
def truthy : JSValue → Bool
  | none => false
  | some .null => false
  | some (.bool b) => b
  | some (.num n) => !n.isZero
  | some (.str s) => decide (s ≠ "")
  | some (.arr _) => true
  | some (.obj _) => true

mutual
/-- String conversion (`ToString`) of a JSON value, as performed by a template
literal and by `localStorage.setItem`. An array is the comma-joined conversion of
its elements. A plain object gives `[object Object]` through
`Object.prototype.toString`, unless it has an own member named `toString`: that
member is not callable, the inherited `valueOf` returns the object itself, and the
conversion throws a `TypeError`. -/
def Json.toStr : Json → Except JSError String
  | .null => .ok "null"
  | .bool b => .ok (if b then "true" else "false")
  | .num n => .ok n.text
  | .str s => .ok s
  | .arr items =>
    match Json.toStrList items with
    | .error e => .error e
    | .ok parts => .ok (String.intercalate "," parts)
  | .obj members =>
    match ownProp "toString" members with
    | some _ => .error .typeError
    | none => .ok "[object Object]"
termination_by structural v => v
/-- The element texts used by `Array.prototype.join`: `null` contributes the
empty string, every other element its string conversion. -/
def Json.toStrList : List Json → Except JSError (List String)
  | [] => .ok []
  | x :: rest =>
    match (match x with
           | .null => (.ok "" : Except JSError String)
           | v => Json.toStr v) with
    | .error e => .error e
    | .ok a =>
      match Json.toStrList rest with
      | .error e => .error e
      | .ok b => .ok (a :: b)
termination_by structural l => l
end

/-- String conversion of a value that may be `undefined`. -/
def toStr : JSValue → Except JSError String
  | none => .ok "undefined"
  | some v => v.toStr

/-! ## Platform state: `localStorage`, requests, responses -/

/-- The `localStorage` area: a list of key/value pairs with distinct keys. -/
structure Storage where
  entries : List (String × String)

/-- Result of `localStorage.getItem(key)`: the stored string, or `none` for `null`. -/
def Storage.getItem (st : Storage) (key : String) : Option String :=
  match st.entries.find? (fun e => decide (e.1 = key)) with
  | some e => some e.2
  | none => none

/-- Effect of `localStorage.removeItem(key)`. -/
def Storage.removeItem (st : Storage) (key : String) : Storage :=
  ⟨st.entries.filter (fun e => decide (e.1 ≠ key))⟩

/-- Effect of `localStorage.setItem(key, value)` with `value` already a string. -/
def Storage.setItem (st : Storage) (key value : String) : Storage :=
  ⟨(key, value) :: (st.removeItem key).entries⟩

/-- One request issued by `fetch`: the address and method it was handed, the
header list it built, and in `json` the value whose `JSON.stringify` text is the
request body (`none`: no body). -/
structure Request where
  url : String
  method : String
  headers : List (String × String)
  json : Option Json

/-- The HTTP whitespace of the Fetch standard: tab, line feed, carriage return
and space. -/
def isHttpWhitespace (c : Char) : Bool :=
  c.toNat == 9 || c.toNat == 10 || c.toNat == 13 || c.toNat == 32

/-- Header value normalisation of the Fetch standard: leading and trailing HTTP
whitespace is removed. -/
def normalizeHeaderValue (value : String) : String :=
  String.mk ((value.data.dropWhile isHttpWhitespace).reverse.dropWhile isHttpWhitespace).reverse

/-- Whether `fetch` accepts a header value: every code point is at most 255 (the
value has to convert to a byte string) and the normalised value holds no NUL, line
feed or carriage return. -/
def acceptsHeaderValue (value : String) : Bool :=
  value.data.all (fun c => decide (c.toNat ≤ 255)) &&
    (normalizeHeaderValue value).data.all
      (fun c => !(c.toNat == 0 || c.toNat == 10 || c.toNat == 13))

/-- The header list `fetch` builds from the `headers` member of its second
argument: each value is normalised, and a value that is not accepted makes `fetch`
fail with a `TypeError` before anything is sent. The names used by this program
(`Content-Type`, `authorization`) are valid header names. -/
def fillHeaders : List (String × String) → Except JSError (List (String × String))
  | [] => .ok []
  | (name, value) :: rest =>
    if acceptsHeaderValue value = false then .error .typeError
    else
      match fillHeaders rest with
      | .error e => .error e
      | .ok filled => .ok ((name, normalizeHeaderValue value) :: filled)

/-- What the network exchange of one handler call comes to. -/
inductive FetchOutcome where
  /-- The promise of `fetch` rejects. -/
  | failed
  /-- A response with this status arrives but `response.json()` rejects. -/
  | notJson (status : Nat)
  /-- A response with this status and this parsed body arrives. -/
  | ok (status : Nat) (body : Json)

/-! ## `App` -/

/-- The state the handlers of `App` read and write. -/
structure Session where
  /-- The browser's `localStorage`. -/
  localStorage : Storage
  /-- React state `isLoggedIn`. -/
  isLoggedIn : Bool
  /-- React state `user`. -/
  user : JSValue
  /-- The argument of the latest `navigate` call (the current route before any). -/
  location : String
  /-- The `fetch` calls made so far, oldest first. -/
  requests : List Request

/-- The session after a handler call and how the call completed. -/
structure Outcome where
  state : Session
  result : Except JSError JSValue

/-- Line 14 of `App.js`. -/
def URL : String := "http://localhost:4000/api/"

/-- The session when `App` is first rendered: `useState(false)`, `useState(null)`. -/
def initialSession (stored : Storage) (route : String) : Session :=
  { localStorage := stored, isLoggedIn := false, user := some .null,
    location := route, requests := [] }

/-- The `fetch` call shared by `handleSignUp` and `handleLogin`. -/
def postRequest (path : String) (user : Json) : Request :=
  { url := URL ++ path, method := "POST",
    headers := [("Content-Type", "application/json")], json := some user }

/-- `handleSignUp` (`App.js` lines 16-27). -/
def handleSignUp (s : Session) (user : Json) (net : FetchOutcome) : Outcome :=
  let s1 := { s with requests := s.requests ++ [postRequest "auth/signup" user] }
  match net with
  | .failed => ⟨s1, .error .fetchFailed⟩
  | .notJson _ => ⟨s1, .error .syntaxError⟩
  | .ok _ _ => ⟨{ s1 with location := "/login" }, .ok none⟩

/-- `handleLogin` (`App.js` lines 29-46). -/
def handleLogin (s : Session) (user : Json) (net : FetchOutcome) : Outcome :=
  let s1 := { s with requests := s.requests ++ [postRequest "auth/login" user] }
  match net with
  | .failed => ⟨s1, .error .fetchFailed⟩
  | .notJson _ => ⟨s1, .error .syntaxError⟩
  | .ok status data =>
    -- `response.status !== 200 || !data.token`: the right operand is only
    -- evaluated when the status is 200
    if status ≠ 200 then ⟨s1, .ok (some data)⟩
    else
      match getProp data "token" with
      | .error e => ⟨s1, .error e⟩
      | .ok token =>
        if truthy token = false then ⟨s1, .ok (some data)⟩
        else
          -- `localStorage.setItem("authToken", data.token)`
          match toStr token with
          | .error e => ⟨s1, .error e⟩
          | .ok t =>
            let s2 := { s1 with localStorage := s1.localStorage.setItem "authToken" t }
            let s3 := { s2 with isLoggedIn := true }
            -- navigate(`/profile/${data.id}`)
            match getProp data "id" with
            | .error e => ⟨s3, .error e⟩
            | .ok id =>
              match toStr id with
              | .error e => ⟨s3, .error e⟩
              | .ok i => ⟨{ s3 with location := "/profile/" ++ i }, .ok none⟩

/-- `handleLogout` (`App.js` lines 48-53). -/
def handleLogout (s : Session) : Outcome :=
  let s1 := { s with localStorage := s.localStorage.removeItem "authToken" }
  let s2 := { s1 with isLoggedIn := false }
  ⟨{ s2 with location := "/" }, .ok none⟩

/-- `fetchUser` (`App.js` lines 55-72). -/
def fetchUser (s : Session) (id : JSValue) (net : FetchOutcome) : Outcome :=
  match s.localStorage.getItem "authToken" with
  | none => ⟨s, .ok none⟩
  | some token =>
    if token ≠ "" then
      match toStr id with
      | .error e => ⟨s, .error e⟩
      | .ok i =>
        match fillHeaders [("Content-Type", "application/json"), ("authorization", token)] with
        | .error e => ⟨s, .error e⟩
        | .ok filled =>
          let request : Request :=
            { url := URL ++ ("user/" ++ i), method := "GET", headers := filled, json := none }
          let s1 := { s with requests := s.requests ++ [request] }
          match net with
          | .failed => ⟨s1, .error .fetchFailed⟩
          | .notJson _ => ⟨s1, .error .syntaxError⟩
          | .ok _ data =>
            match getProp data "data" with
            | .error e => ⟨s1, .error e⟩
            | .ok d => ⟨{ s1 with user := d }, .ok none⟩
    else ⟨s, .ok none⟩

/-- The mount effect of `App` (`App.js` lines 74-83). -/
def mountEffect (s : Session) : Session :=
  match s.localStorage.getItem "authToken" with
  | none => { s with isLoggedIn := false }
  | some token =>
    if token ≠ "" then { s with isLoggedIn := true } else { s with isLoggedIn := false }

/-! ## `Login` -/

/-- The state of the `Login` component: `form` and `errorMsg`. -/
structure LoginView where
  form : Json
  errorMsg : JSValue

/-- The `Login` component when first rendered: `useState(null)`, `useState("")`. -/
def initialLoginView : LoginView := { form := .null, errorMsg := some (.str "") }

/-- The component state and the session after a submit, and how it completed. -/
structure SubmitOutcome where
  view : LoginView
  app : Outcome

/-- `handleSubmit` (`Login.js` lines 7-14), with `props.handleLogin` bound to
`handleLogin` as in `App.js` line 91. -/
def handleSubmit (view : LoginView) (s : Session) (net : FetchOutcome) : SubmitOutcome :=
  let r := handleLogin s view.form net
  match r.result with
  | .error e => ⟨view, ⟨r.state, .error e⟩⟩
  | .ok submission =>
    if truthy submission then
      match submission with
      | none => ⟨view, ⟨r.state, .ok none⟩⟩
      | some body =>
        match getProp body "error" with
        | .error e => ⟨view, ⟨r.state, .error e⟩⟩
        | .ok msg => ⟨{ view with errorMsg := msg }, ⟨r.state, .ok none⟩⟩
    else ⟨view, ⟨r.state, .ok none⟩⟩

mutual
/-- The text React puts on screen for a child value: a string or a number is
shown as text, `null` and booleans show nothing, an array shows its elements one
after the other, and an object makes the render fail (`Objects are not valid as a
React child`). -/
def Json.childText : Json → Except JSError String
  | .null => .ok ""
  | .bool _ => .ok ""
  | .num n => .ok n.text
  | .str s => .ok s
  | .arr items => Json.childTextList items
  | .obj _ => .error .invalidChild
termination_by structural v => v
/-- The text React puts on screen for the elements of an array child. -/
def Json.childTextList : List Json → Except JSError String
  | [] => .ok ""
  | x :: rest =>
    match Json.childText x with
    | .error e => .error e
    | .ok a =>
      match Json.childTextList rest with
      | .error e => .error e
      | .ok b => .ok (a ++ b)
termination_by structural l => l
end

/-- The error line of `Login` (`Login.js` line 38): when `errorMsg` is truthy a
red `h4` with `errorMsg` as its child is rendered, and the result is `some` of the
text it shows (possibly empty) or the failure of the render; when `errorMsg` is
falsy the empty string is rendered instead and the result is `none`. -/
def renderError (view : LoginView) : Except JSError (Option String) :=
  if truthy view.errorMsg then
    match view.errorMsg with
    | none => .ok none
    | some child =>
      match child.childText with
      | .error e => .error e
      | .ok text => .ok (some text)
  else .ok none

/-! ## Runs of the session controller -/

/-- One call of a handler of `App`, with the outcome of its network exchange. -/
inductive Action where
  | signUp (user : Json) (net : FetchOutcome)
  | login (user : Json) (net : FetchOutcome)
  | logout
  | fetch (id : JSValue) (net : FetchOutcome)

/-- The session after one handler call. -/
def step (s : Session) : Action → Session
  | .signUp user net => (handleSignUp s user net).state
  | .login user net => (handleLogin s user net).state
  | .logout => (handleLogout s).state
  | .fetch id net => (fetchUser s id net).state

/-- The session after a sequence of handler calls. -/
def run (s : Session) : List Action → Session
  | [] => s
  | a :: rest => run (step s a) rest

/-- The login flag agrees with the token store: `isLoggedIn` is true exactly when
`localStorage` holds a non-empty string under `authToken`. -/
def flagMatchesStore (s : Session) : Prop :=
  s.isLoggedIn = true ↔ ∃ t, s.localStorage.getItem "authToken" = some t ∧ t ≠ ""

/-- The credentials of the login scenario. -/
def sampleCredentials : Json :=
  .obj [("username", .str "a"), ("password", .str "b")]

/-- The response body of the successful login scenario. -/
def sampleLoginBody : Json :=
  .obj [("token", .str "T1"), ("id", .str "42")]

/-- A 200 response whose token is an object with a member named `toString`. -/
def unstorableTokenBody : Json :=
  .obj [("token", .obj [("toString", .null)])]

/-- A 200 response whose token is the empty array. -/
def emptyArrayTokenBody : Json :=
  .obj [("token", .arr [])]

/-- A 200 response whose token is a string and whose id is an object with a
member named `toString`. -/
def unprintableIdBody : Json :=
  .obj [("token", .str "T1"), ("id", .obj [("toString", .null)])]

/-- A 200 response whose token string has a space on either side. -/
def paddedTokenBody : Json :=
  .obj [("token", .str " T1 "), ("id", .str "42")]

/-- A failed login whose `error` field is an object. -/
def objectErrorBody : Json :=
  .obj [("error", .obj [("message", .str "bad credentials")])]

/-- The response body of the failed login scenario. -/
def sampleErrorBody : Json :=
  .obj [("error", .str "bad credentials")]

/-- A `Login` form that already shows the message of an earlier attempt. -/
def staleLoginView : LoginView :=
  { form := sampleCredentials, errorMsg := some (.str "bad credentials") }

/-- A session with a token left in `localStorage` by an earlier visit. -/
def returningSession : Session :=
  initialSession ⟨[("authToken", "T0")]⟩ "/"

/-- A run that logs out, signs up, logs in and loads the profile. -/
def sampleRun : List Action :=
  [ .logout,
    .signUp sampleCredentials (.ok 201 (.obj [])),
    .login sampleCredentials (.ok 401 sampleErrorBody),
    .login sampleCredentials (.ok 200 sampleLoginBody),
    .fetch (some (.str "42")) (.ok 200 (.obj [("data", .obj [("username", .str "a")])])) ]

/-! ## The token store -/

theorem Storage.getItem_removeItem (st : Storage) (key : String) :
    (st.removeItem key).getItem key = none := by
  have h : List.find? (fun e => decide (e.1 = key))
      (List.filter (fun e : String × String => decide (e.1 ≠ key)) st.entries) = none := by
    rw [List.find?_eq_none]
    intro e he
    have h2 := (List.mem_filter.mp he).2
    simpa using h2
  simp only [Storage.getItem, Storage.removeItem, h]

theorem Storage.getItem_setItem (st : Storage) (key value : String) :
    (st.setItem key value).getItem key = some value := by
  simp [Storage.getItem, Storage.setItem, List.find?]

theorem Storage.removeItem_removeItem (st : Storage) (key : String) :
    (st.removeItem key).removeItem key = st.removeItem key := by
  simp [Storage.removeItem, List.filter_filter]

/-! ## Headers built by `fetch` -/

theorem fillHeaders_authorization (token : String) :
    fillHeaders [("Content-Type", "application/json"), ("authorization", token)] =
      if acceptsHeaderValue token = false then .error .typeError
      else .ok [("Content-Type", "application/json"),
        ("authorization", normalizeHeaderValue token)] := by
  have h1 : acceptsHeaderValue "application/json" = true := by decide
  have h2 : normalizeHeaderValue "application/json" = "application/json" := by decide
  by_cases h : acceptsHeaderValue token = false
  · simp [fillHeaders, h1, h]
  · simp [fillHeaders, h1, h2, h]

theorem dropWhile_eq_self_of_head (p : Char → Bool) (l : List Char)
    (h : ∀ c, l.head? = some c → p c = false) : l.dropWhile p = l := by
  cases l with
  | nil => rfl
  | cons c rest =>
    have hc : p c = false := h c rfl
    simp [List.dropWhile, hc]

/-- A value without leading or trailing HTTP whitespace is its own normal form. -/
theorem normalizeHeaderValue_eq_self (value : String)
    (hfirst : ∀ c, value.data.head? = some c → isHttpWhitespace c = false)
    (hlast : ∀ c, value.data.getLast? = some c → isHttpWhitespace c = false) :
    normalizeHeaderValue value = value := by
  unfold normalizeHeaderValue
  rw [dropWhile_eq_self_of_head isHttpWhitespace value.data hfirst]
  rw [dropWhile_eq_self_of_head isHttpWhitespace value.data.reverse
    (by rw [List.head?_reverse]; exact hlast)]
  rw [List.reverse_reverse]

/-! ## `fetchUser`, case by case -/

/-- With a non-empty token in the store, an id that has a string form and a token
`fetch` accepts as a header value, exactly one request is issued. -/
theorem fetchUser_of_accepted_token (s : Session) (id : JSValue) (net : FetchOutcome)
    (token i : String) (hget : s.localStorage.getItem "authToken" = some token)
    (hne : token ≠ "") (hid : toStr id = .ok i) (hacc : acceptsHeaderValue token = true) :
    (fetchUser s id net).state.requests =
      s.requests ++
        [{ url := URL ++ ("user/" ++ i), method := "GET",
           headers := [("Content-Type", "application/json"),
             ("authorization", normalizeHeaderValue token)],
           json := none }] := by
  unfold fetchUser
  rw [hget]
  simp only [hne, ne_eq, not_false_eq_true, if_true, hid, fillHeaders_authorization, hacc,
    Bool.true_eq_false, if_false]
  cases net with
  | failed => rfl
  | notJson status => rfl
  | ok status data =>
    cases hd : getProp data "data" with
    | error e => simp [hd]
    | ok d => simp [hd]

/-- With a token in the store that `fetch` does not accept as a header value, the
call fails with a `TypeError` and nothing is sent. -/
theorem fetchUser_of_refused_token (s : Session) (id : JSValue) (net : FetchOutcome)
    (token i : String) (hget : s.localStorage.getItem "authToken" = some token)
    (hne : token ≠ "") (hid : toStr id = .ok i) (hacc : acceptsHeaderValue token = false) :
    fetchUser s id net = ⟨s, .error .typeError⟩ := by
  unfold fetchUser
  rw [hget]
  simp only [hne, ne_eq, not_false_eq_true, if_true, hid, fillHeaders_authorization, hacc]

/-- With an id that has no string form, the template literal throws and nothing
is sent. -/
theorem fetchUser_of_unprintable_id (s : Session) (id : JSValue) (net : FetchOutcome)
    (token : String) (e : JSError) (hget : s.localStorage.getItem "authToken" = some token)
    (hne : token ≠ "") (hid : toStr id = .error e) :
    fetchUser s id net = ⟨s, .error e⟩ := by
  unfold fetchUser
  rw [hget]
  simp only [hne, ne_eq, not_false_eq_true, if_true, hid]

/-- With the empty string in the store nothing is sent. -/
theorem fetchUser_of_empty_token (s : Session) (id : JSValue) (net : FetchOutcome)
    (hget : s.localStorage.getItem "authToken" = some "") :
    fetchUser s id net = ⟨s, .ok none⟩ := by
  simp [fetchUser, hget]

/-! ## `handleLogin`, case by case -/

/-- A response whose status is not 200 is returned as it is. -/
theorem handleLogin_of_status_ne (s : Session) (user : Json) (status : Nat) (body : Json)
    (h : status ≠ 200) :
    handleLogin s user (.ok status body) =
      ⟨{ s with requests := s.requests ++ [postRequest "auth/login" user] }, .ok (some body)⟩ := by
  simp [handleLogin, h]

/-- A 200 response whose token is falsy is returned as it is. -/
theorem handleLogin_of_falsy_token (s : Session) (user : Json) (body : Json) (token : JSValue)
    (hprop : getProp body "token" = .ok token) (hfalsy : truthy token = false) :
    handleLogin s user (.ok 200 body) =
      ⟨{ s with requests := s.requests ++ [postRequest "auth/login" user] }, .ok (some body)⟩ := by
  simp [handleLogin, hprop, hfalsy]

/-- A 200 response with a `null` body makes `data.token` throw. -/
theorem handleLogin_of_null_body (s : Session) (user : Json) :
    handleLogin s user (.ok 200 .null) =
      ⟨{ s with requests := s.requests ++ [postRequest "auth/login" user] },
        .error .typeError⟩ := by
  rfl

/-- A 200 response whose truthy token cannot be converted to a string makes
`localStorage.setItem` throw before anything is written. -/
theorem handleLogin_of_unstorable_token (s : Session) (user : Json) (body : Json)
    (token : JSValue) (e : JSError)
    (hprop : getProp body "token" = .ok token) (htruthy : truthy token = true)
    (hstr : toStr token = .error e) :
    handleLogin s user (.ok 200 body) =
      ⟨{ s with requests := s.requests ++ [postRequest "auth/login" user] }, .error e⟩ := by
  simp [handleLogin, hprop, htruthy, hstr]

/-- A 200 response with a truthy, convertible token stores the token text and sets
the login flag, whatever happens to the navigation afterwards. -/
theorem handleLogin_of_stored_token (s : Session) (user : Json) (body : Json)
    (token : JSValue) (text : String)
    (hprop : getProp body "token" = .ok token) (htruthy : truthy token = true)
    (hstr : toStr token = .ok text) :
    (handleLogin s user (.ok 200 body)).state.localStorage =
        s.localStorage.setItem "authToken" text ∧
      (handleLogin s user (.ok 200 body)).state.isLoggedIn = true ∧
      (handleLogin s user (.ok 200 body)).state.requests =
        s.requests ++ [postRequest "auth/login" user] ∧
      (handleLogin s user (.ok 200 body)).state.user = s.user := by
  simp only [handleLogin, hprop, htruthy, hstr]
  cases hid : getProp body "id" with
  | error e => simp
  | ok id =>
    cases hi : toStr id with
    | error e => simp [hi]
    | ok i => simp [hi]

/-- The five ways a login response can be handled. -/
theorem login_response_cases (status : Nat) (body : Json) :
    status ≠ 200 ∨
    (status = 200 ∧ body = .null) ∨
    (status = 200 ∧ ∃ token, getProp body "token" = .ok token ∧ truthy token = false) ∨
    (status = 200 ∧ ∃ token e, getProp body "token" = .ok token ∧ truthy token = true ∧
      toStr token = .error e) ∨
    (status = 200 ∧ ∃ token text, getProp body "token" = .ok token ∧ truthy token = true ∧
      toStr token = .ok text) := by
  by_cases hs : status = 200
  · right
    cases hprop : getProp body "token" with
    | error e =>
      left
      refine ⟨hs, ?_⟩
      cases body <;> simp [getProp] at hprop ⊢
    | ok token =>
      right
      cases ht : truthy token with
      | false => exact Or.inl ⟨hs, token, rfl, ht⟩
      | true =>
        right
        cases hstr : toStr token with
        | error e => exact Or.inl ⟨hs, token, e, rfl, ht, hstr⟩
        | ok text => exact Or.inr ⟨hs, token, text, rfl, ht, hstr⟩
  · exact Or.inl hs

/-! ## Frame lemmas for the login flag and the token store -/

theorem flagMatchesStore_of_same (s t : Session) (hstore : t.localStorage = s.localStorage)
    (hflag : t.isLoggedIn = s.isLoggedIn) (h : flagMatchesStore s) : flagMatchesStore t := by
  unfold flagMatchesStore at h ⊢
  rw [hstore, hflag]
  exact h

theorem handleSignUp_same (s : Session) (user : Json) (net : FetchOutcome) :
    (handleSignUp s user net).state.localStorage = s.localStorage ∧
      (handleSignUp s user net).state.isLoggedIn = s.isLoggedIn := by
  cases net <;> exact ⟨rfl, rfl⟩

theorem fetchUser_same (s : Session) (id : JSValue) (net : FetchOutcome) :
    (fetchUser s id net).state.localStorage = s.localStorage ∧
      (fetchUser s id net).state.isLoggedIn = s.isLoggedIn := by
  unfold fetchUser
  cases s.localStorage.getItem "authToken" with
  | none => exact ⟨rfl, rfl⟩
  | some token =>
    by_cases ht : token = ""
    · simp [ht]
    · cases hid : toStr id with
      | error e => simp [ht]
      | ok i =>
        cases hfill : fillHeaders
            [("Content-Type", "application/json"), ("authorization", token)] with
        | error e => simp [ht, hfill]
        | ok filled =>
          cases net with
          | failed => simp [ht, hfill]
          | notJson status => simp [ht, hfill]
          | ok status body =>
            cases hd : getProp body "data" with
            | error e => simp [ht, hd, hfill]
            | ok d => simp [ht, hd, hfill]

theorem mountEffect_flagMatchesStore (s : Session) : flagMatchesStore (mountEffect s) := by
  unfold flagMatchesStore mountEffect
  cases h : s.localStorage.getItem "authToken" with
  | none => simp [h]
  | some token =>
    by_cases ht : token = ""
    · simp [ht, h]
    · simp [ht, h]

theorem handleLogout_flagMatchesStore (s : Session) :
    flagMatchesStore (handleLogout s).state := by
  simp [flagMatchesStore, handleLogout, Storage.getItem_removeItem]

theorem handleLogin_flagMatchesStore (s : Session) (user : Json) (net : FetchOutcome)
    (hinv : flagMatchesStore s)
    (hok : ∀ status body token, net = .ok status body → status = 200 →
      getProp body "token" = .ok token → truthy token = true → toStr token ≠ .ok "") :
    flagMatchesStore (handleLogin s user net).state := by
  cases net with
  | failed => exact flagMatchesStore_of_same s _ rfl rfl hinv
  | notJson status => exact flagMatchesStore_of_same s _ rfl rfl hinv
  | ok status body =>
    rcases login_response_cases status body with h | ⟨rfl, rfl⟩ | ⟨rfl, token, hp, hf⟩ |
      ⟨rfl, token, e, hp, ht, he⟩ | ⟨rfl, token, text, hp, ht, hs⟩
    · rw [handleLogin_of_status_ne s user status body h]
      exact flagMatchesStore_of_same s _ rfl rfl hinv
    · rw [handleLogin_of_null_body]
      exact flagMatchesStore_of_same s _ rfl rfl hinv
    · rw [handleLogin_of_falsy_token s user body token hp hf]
      exact flagMatchesStore_of_same s _ rfl rfl hinv
    · rw [handleLogin_of_unstorable_token s user body token e hp ht he]
      exact flagMatchesStore_of_same s _ rfl rfl hinv
    · obtain ⟨hstore, hflag, -, -⟩ := handleLogin_of_stored_token s user body token text hp ht hs
      have hne : text ≠ "" := by
        intro h
        exact hok 200 body token rfl rfl hp ht (by rw [hs, h])
      unfold flagMatchesStore
      rw [hstore, hflag, Storage.getItem_setItem]
      simp [hne]

theorem step_flagMatchesStore (s : Session) (a : Action) (hinv : flagMatchesStore s)
    (hok : ∀ user status body token, a = .login user (.ok status body) → status = 200 →
      getProp body "token" = .ok token → truthy token = true → toStr token ≠ .ok "") :
    flagMatchesStore (step s a) := by
  cases a with
  | signUp user net =>
    exact flagMatchesStore_of_same s _ (handleSignUp_same s user net).1
      (handleSignUp_same s user net).2 hinv
  | login user net =>
    apply handleLogin_flagMatchesStore s user net hinv
    intro status body token hnet
    exact hok user status body token (by rw [hnet])
  | logout => exact handleLogout_flagMatchesStore s
  | fetch id net =>
    exact flagMatchesStore_of_same s _ (fetchUser_same s id net).1 (fetchUser_same s id net).2 hinv

theorem run_flagMatchesStore (acts : List Action) (s : Session) (hinv : flagMatchesStore s)
    (hok : ∀ user status body token, Action.login user (.ok status body) ∈ acts →
      status = 200 → getProp body "token" = .ok token → truthy token = true →
      toStr token ≠ .ok "") :
    flagMatchesStore (run s acts) := by
  induction acts generalizing s with
  | nil => exact hinv
  | cons a rest ih =>
    apply ih (step s a)
    · apply step_flagMatchesStore s a hinv
      intro user status body token ha
      exact hok user status body token (by rw [ha]; exact List.mem_cons_self _ _)
    · intro user status body token hmem
      exact hok user status body token (List.mem_cons_of_mem _ hmem)

/-! ## The claims -/

/-- C1, as stated, fails at a 200 response whose token is truthy but cannot be
converted to a string: the token field is present and not empty, yet
`localStorage.setItem` throws and the session stays logged out. -/
theorem handleLogin_unstorable_token_stays_logged_out :
    (initialSession ⟨[]⟩ "/login").isLoggedIn = false ∧
      (initialSession ⟨[]⟩ "/login").localStorage.getItem "authToken" = none ∧
      getProp unstorableTokenBody "token" = .ok (some (.obj [("toString", .null)])) ∧
      truthy (some (.obj [("toString", .null)])) = true ∧
      (handleLogin (initialSession ⟨[]⟩ "/login") sampleCredentials
        (.ok 200 unstorableTokenBody)).state.isLoggedIn = false ∧
      (handleLogin (initialSession ⟨[]⟩ "/login") sampleCredentials
        (.ok 200 unstorableTokenBody)).result = .error .typeError :=
  ⟨rfl, rfl, rfl, rfl, rfl, rfl⟩

/-- C1, amended: started logged out (flag false, no stored token), `handleLogin`
ends with the flag true if and only if the status is 200 and the body has a truthy
token field that can be converted to a string; in every other case the flag stays
false and no token is stored. -/
theorem handleLogin_logs_in_iff (s : Session) (user : Json) (status : Nat) (body : Json)
    (hflag : s.isLoggedIn = false) (hstore : s.localStorage.getItem "authToken" = none) :
    ((handleLogin s user (.ok status body)).state.isLoggedIn = true ↔
        status = 200 ∧ ∃ token text, getProp body "token" = .ok token ∧
          truthy token = true ∧ toStr token = .ok text) ∧
      ((handleLogin s user (.ok status body)).state.isLoggedIn = false →
        (handleLogin s user (.ok status body)).state.localStorage.getItem "authToken" = none) := by
  rcases login_response_cases status body with h | ⟨rfl, rfl⟩ | ⟨rfl, token, hp, hf⟩ |
    ⟨rfl, token, e, hp, ht, he⟩ | ⟨rfl, token, text, hp, ht, hs⟩
  · rw [handleLogin_of_status_ne s user status body h]
    refine ⟨⟨fun hin => ?_, fun hcond => absurd hcond.1 h⟩, fun _ => hstore⟩
    have h2 : s.isLoggedIn = true := hin
    rw [hflag] at h2
    cases h2
  · rw [handleLogin_of_null_body]
    refine ⟨⟨fun hin => ?_, ?_⟩, fun _ => hstore⟩
    · have h2 : s.isLoggedIn = true := hin
      rw [hflag] at h2
      cases h2
    · rintro ⟨-, tok, text, hp2, -, -⟩
      cases hp2
  · rw [handleLogin_of_falsy_token s user body token hp hf]
    refine ⟨⟨fun hin => ?_, ?_⟩, fun _ => hstore⟩
    · have h2 : s.isLoggedIn = true := hin
      rw [hflag] at h2
      cases h2
    · rintro ⟨-, tok, text, hp2, ht2, -⟩
      rw [hp] at hp2
      cases hp2
      rw [hf] at ht2
      cases ht2
  · rw [handleLogin_of_unstorable_token s user body token e hp ht he]
    refine ⟨⟨fun hin => ?_, ?_⟩, fun _ => hstore⟩
    · have h2 : s.isLoggedIn = true := hin
      rw [hflag] at h2
      cases h2
    · rintro ⟨-, tok, text, hp2, -, hs2⟩
      rw [hp] at hp2
      cases hp2
      rw [he] at hs2
      cases hs2
  · obtain ⟨_, hflag2, -, -⟩ := handleLogin_of_stored_token s user body token text hp ht hs
    rw [hflag2]
    refine ⟨⟨fun _ => ⟨rfl, token, text, hp, ht, hs⟩, fun _ => rfl⟩, fun hout => ?_⟩
    cases hout

/-- The successful login scenario, started from a fresh page, as an instance. -/
theorem handleLogin_logs_in_iff_witness :
    ((handleLogin (initialSession ⟨[]⟩ "/login") sampleCredentials
        (.ok 200 sampleLoginBody)).state.isLoggedIn = true ↔
        200 = 200 ∧ ∃ token text, getProp sampleLoginBody "token" = .ok token ∧
          truthy token = true ∧ toStr token = .ok text) ∧
      ((handleLogin (initialSession ⟨[]⟩ "/login") sampleCredentials
        (.ok 200 sampleLoginBody)).state.isLoggedIn = false →
        (handleLogin (initialSession ⟨[]⟩ "/login") sampleCredentials
          (.ok 200 sampleLoginBody)).state.localStorage.getItem "authToken" = none) :=
  handleLogin_logs_in_iff (initialSession ⟨[]⟩ "/login") sampleCredentials 200 sampleLoginBody
    rfl rfl

/-- C2, as stated, fails at a 200 response whose body has the token `T1` and an
id without a string form: the token is stored and the flag set, but the template
literal of the navigation throws, so the target stays where it was. -/
theorem handleLogin_unprintable_id_no_navigation :
    getProp unprintableIdBody "token" = .ok (some (.str "T1")) ∧
      getProp unprintableIdBody "id" = .ok (some (.obj [("toString", .null)])) ∧
      (handleLogin (initialSession ⟨[]⟩ "/login") sampleCredentials
        (.ok 200 unprintableIdBody)).state.location = "/login" ∧
      (handleLogin (initialSession ⟨[]⟩ "/login") sampleCredentials
        (.ok 200 unprintableIdBody)).result = .error .typeError :=
  ⟨rfl, rfl, rfl, rfl⟩

/-- C2, amended: for a 200 response whose body has a truthy token with string
form `t` and an id (any value, `undefined` included) with string form `i`, after
`handleLogin` the store holds exactly `t` under `authToken`, `isLoggedIn` is true,
the navigation target is `/profile/` followed by `i`, and the call completes
without a value. A string is its own string form. -/
theorem handleLogin_success (s : Session) (user : Json) (body : Json) (token id : JSValue)
    (t i : String)
    (htoken : getProp body "token" = .ok token) (htruthy : truthy token = true)
    (ht : toStr token = .ok t)
    (hid : getProp body "id" = .ok id) (hi : toStr id = .ok i) :
    (handleLogin s user (.ok 200 body)).state.localStorage.getItem "authToken" = some t ∧
      (handleLogin s user (.ok 200 body)).state.isLoggedIn = true ∧
      (handleLogin s user (.ok 200 body)).state.location = "/profile/" ++ i ∧
      (handleLogin s user (.ok 200 body)).result = .ok none := by
  simp [handleLogin, htoken, htruthy, ht, hid, hi, Storage.getItem_setItem]

/-- The scenario token `T1`, id `42`: stored token `T1`, target `/profile/42`. -/
theorem handleLogin_success_witness :
    (handleLogin (initialSession ⟨[]⟩ "/login") sampleCredentials
        (.ok 200 sampleLoginBody)).state.localStorage.getItem "authToken" = some "T1" ∧
      (handleLogin (initialSession ⟨[]⟩ "/login") sampleCredentials
        (.ok 200 sampleLoginBody)).state.isLoggedIn = true ∧
      (handleLogin (initialSession ⟨[]⟩ "/login") sampleCredentials
        (.ok 200 sampleLoginBody)).state.location = "/profile/" ++ "42" ∧
      (handleLogin (initialSession ⟨[]⟩ "/login") sampleCredentials
        (.ok 200 sampleLoginBody)).result = .ok none :=
  handleLogin_success (initialSession ⟨[]⟩ "/login") sampleCredentials sampleLoginBody
    (some (.str "T1")) (some (.str "42")) "T1" "42" rfl rfl rfl rfl rfl

/-- C3, as stated, fails at a 200 response whose body is `null`: the outcome is
not (status 200 and token present), yet `handleLogin` throws a `TypeError` instead
of returning the body. -/
theorem handleLogin_null_body_throws :
    ¬ (200 = 200 ∧ ∃ t, getProp Json.null "token" = .ok (some t)) ∧
      (handleLogin (initialSession ⟨[]⟩ "/login") sampleCredentials
        (.ok 200 .null)).result = .error .typeError := by
  refine ⟨?_, rfl⟩
  rintro ⟨-, t, ht⟩
  simp [getProp] at ht

/-- C3, amended: for every response other than (status 200 and a token field
present) and other than (status 200 and body `null`), `handleLogin` returns the
parsed body unchanged without throwing, and changes nothing in the session except
for recording its request. -/
theorem handleLogin_returns_body (s : Session) (user : Json) (status : Nat) (body : Json)
    (hfail : ¬ (status = 200 ∧ ∃ t, getProp body "token" = .ok (some t)))
    (hnull : ¬ (status = 200 ∧ body = .null)) :
    handleLogin s user (.ok status body) =
      ⟨{ s with requests := s.requests ++ [postRequest "auth/login" user] },
        .ok (some body)⟩ := by
  rcases login_response_cases status body with h | ⟨rfl, rfl⟩ | ⟨rfl, token, hp, hf⟩ |
    ⟨rfl, token, e, hp, ht, he⟩ | ⟨rfl, token, text, hp, ht, hs⟩
  · exact handleLogin_of_status_ne s user status body h
  · exact absurd ⟨rfl, rfl⟩ hnull
  · exact handleLogin_of_falsy_token s user body token hp hf
  · cases token with
    | none => simp [truthy] at ht
    | some t => exact absurd ⟨rfl, t, hp⟩ hfail
  · cases token with
    | none => simp [truthy] at ht
    | some t => exact absurd ⟨rfl, t, hp⟩ hfail

/-- The failed login scenario: the 401 body is handed back as it is. -/
theorem handleLogin_returns_body_witness :
    handleLogin (initialSession ⟨[]⟩ "/login") sampleCredentials (.ok 401 sampleErrorBody) =
      ⟨{ initialSession ⟨[]⟩ "/login" with
          requests := (initialSession ⟨[]⟩ "/login").requests ++
            [postRequest "auth/login" sampleCredentials] },
        .ok (some sampleErrorBody)⟩ :=
  handleLogin_returns_body (initialSession ⟨[]⟩ "/login") sampleCredentials 401 sampleErrorBody
    (by rintro ⟨h, -⟩; exact absurd h (by decide))
    (by rintro ⟨h, -⟩; exact absurd h (by decide))

/-- C4: from every session, `handleLogout` completes with no token under
`authToken`, `isLoggedIn` false and the navigation target `/`. -/
theorem handleLogout_clears_session (s : Session) :
    (handleLogout s).state.localStorage.getItem "authToken" = none ∧
      (handleLogout s).state.isLoggedIn = false ∧
      (handleLogout s).state.location = "/" ∧
      (handleLogout s).result = .ok none :=
  ⟨Storage.getItem_removeItem s.localStorage "authToken", rfl, rfl, rfl⟩

/-- C5: with no token stored under `authToken` (absent, or the empty string),
`fetchUser` for every id and every network behaviour completes without failing
and returns the session exactly as it was: no request is issued and the user, the
login flag, the token store and the navigation target are unchanged. -/
theorem fetchUser_without_token (s : Session) (id : JSValue) (net : FetchOutcome)
    (h : s.localStorage.getItem "authToken" = none ∨
      s.localStorage.getItem "authToken" = some "") :
    fetchUser s id net = ⟨s, .ok none⟩ := by
  rcases h with h | h <;> simp [fetchUser, h]

/-- An empty string under `authToken` counts as no token: nothing is sent. -/
theorem fetchUser_without_token_witness :
    fetchUser (initialSession ⟨[("authToken", "")]⟩ "/profile/42") (some (.str "42"))
        (.ok 200 (.obj [("data", .null)])) =
      ⟨initialSession ⟨[("authToken", "")]⟩ "/profile/42", .ok none⟩ :=
  fetchUser_without_token (initialSession ⟨[("authToken", "")]⟩ "/profile/42")
    (some (.str "42")) (.ok 200 (.obj [("data", .null)])) (Or.inr rfl)

/-- C6, as stated, fails for a token with a space on either side: the login
succeeds and stores ` T1 `, but the request `fetch` issues carries `T1`. -/
theorem fetchUser_trims_padded_token :
    getProp paddedTokenBody "token" = .ok (some (.str " T1 ")) ∧
      (handleLogin (initialSession ⟨[]⟩ "/login") sampleCredentials
        (.ok 200 paddedTokenBody)).state.localStorage.getItem "authToken" = some " T1 " ∧
      (fetchUser (handleLogin (initialSession ⟨[]⟩ "/login") sampleCredentials
          (.ok 200 paddedTokenBody)).state (some (.str "42")) .failed).state.requests =
        (handleLogin (initialSession ⟨[]⟩ "/login") sampleCredentials
          (.ok 200 paddedTokenBody)).state.requests ++
          [{ url := URL ++ ("user/" ++ "42"), method := "GET",
             headers := [("Content-Type", "application/json"), ("authorization", "T1")],
             json := none }] ∧
      "T1" ≠ " T1 " :=
  ⟨rfl, rfl, rfl, by decide⟩

/-- C6, amended: after a login answered with status 200 and a truthy token whose
string form is `t`, the next `fetchUser` call behaves as follows. If `t` is not
empty, `fetch` accepts it as a header value and the id has the string form `i`,
`fetch` is called once and the request it builds is a GET handed the address base
URL followed by `user/` and `i`, whose `authorization` header is `t` without its
leading and trailing HTTP whitespace, which is `t` itself when `t` has none. If `t` is empty
nothing is sent and the call completes. If `fetch` does not accept `t` (a code
point above 255, or NUL, line feed or carriage return inside), or the id has no
string form, the call fails with a `TypeError` and nothing is sent. -/
theorem fetchUser_after_login_sends_token (s : Session) (user : Json) (body : Json)
    (token : JSValue) (t : String) (id : JSValue) (net : FetchOutcome)
    (htoken : getProp body "token" = .ok token) (htruthy : truthy token = true)
    (ht : toStr token = .ok t) :
    (∀ i, t ≠ "" → acceptsHeaderValue t = true → toStr id = .ok i →
        (fetchUser (handleLogin s user (.ok 200 body)).state id net).state.requests =
          (handleLogin s user (.ok 200 body)).state.requests ++
            [{ url := URL ++ ("user/" ++ i), method := "GET",
               headers := [("Content-Type", "application/json"),
                 ("authorization", normalizeHeaderValue t)],
               json := none }]) ∧
      ((∀ c, t.data.head? = some c → isHttpWhitespace c = false) →
        (∀ c, t.data.getLast? = some c → isHttpWhitespace c = false) →
        normalizeHeaderValue t = t) ∧
      (t = "" →
        fetchUser (handleLogin s user (.ok 200 body)).state id net =
          ⟨(handleLogin s user (.ok 200 body)).state, .ok none⟩) ∧
      (∀ i, t ≠ "" → acceptsHeaderValue t = false → toStr id = .ok i →
        fetchUser (handleLogin s user (.ok 200 body)).state id net =
          ⟨(handleLogin s user (.ok 200 body)).state, .error .typeError⟩) ∧
      (∀ e, t ≠ "" → toStr id = .error e →
        fetchUser (handleLogin s user (.ok 200 body)).state id net =
          ⟨(handleLogin s user (.ok 200 body)).state, .error e⟩) := by
  obtain ⟨hstore, -, -, -⟩ := handleLogin_of_stored_token s user body token t htoken htruthy ht
  have hget : (handleLogin s user (.ok 200 body)).state.localStorage.getItem "authToken" =
      some t := by
    rw [hstore, Storage.getItem_setItem]
  refine ⟨?_, normalizeHeaderValue_eq_self t, ?_, ?_, ?_⟩
  · intro i hne hacc hid
    exact fetchUser_of_accepted_token _ id net t i hget hne hid hacc
  · intro hempty
    rw [hempty] at hget
    exact fetchUser_of_empty_token _ id net hget
  · intro i hne hacc hid
    exact fetchUser_of_refused_token _ id net t i hget hne hid hacc
  · intro e hne hid
    exact fetchUser_of_unprintable_id _ id net t e hget hne hid

/-- The request for profile `42` after the scenario login carries `T1`. -/
theorem fetchUser_after_login_sends_token_witness :
    (fetchUser (handleLogin (initialSession ⟨[]⟩ "/login") sampleCredentials
        (.ok 200 sampleLoginBody)).state (some (.str "42")) .failed).state.requests =
      (handleLogin (initialSession ⟨[]⟩ "/login") sampleCredentials
        (.ok 200 sampleLoginBody)).state.requests ++
        [{ url := URL ++ ("user/" ++ "42"), method := "GET",
           headers := [("Content-Type", "application/json"),
             ("authorization", normalizeHeaderValue "T1")],
           json := none }] ∧
      normalizeHeaderValue "T1" = "T1" :=
  ⟨(fetchUser_after_login_sends_token (initialSession ⟨[]⟩ "/login") sampleCredentials
      sampleLoginBody (some (.str "T1")) "T1" (some (.str "42")) .failed rfl rfl rfl).1
      "42" (by decide) (by decide) rfl,
    (fetchUser_after_login_sends_token (initialSession ⟨[]⟩ "/login") sampleCredentials
      sampleLoginBody (some (.str "T1")) "T1" (some (.str "42")) .failed rfl rfl rfl).2.1
      (by decide) (by decide)⟩

/-- C7, as stated, fails: after the startup check on an empty store, a login
answered with status 200 and the empty array as token leaves `isLoggedIn` true
while the store holds the empty string under `authToken`. -/
theorem flag_without_token_after_array_token :
    (run (mountEffect (initialSession ⟨[]⟩ "/login"))
        [.login sampleCredentials (.ok 200 emptyArrayTokenBody)]).isLoggedIn = true ∧
      (run (mountEffect (initialSession ⟨[]⟩ "/login"))
        [.login sampleCredentials (.ok 200 emptyArrayTokenBody)]).localStorage.getItem
          "authToken" = some "" ∧
      ¬ flagMatchesStore (run (mountEffect (initialSession ⟨[]⟩ "/login"))
        [.login sampleCredentials (.ok 200 emptyArrayTokenBody)]) := by
  refine ⟨rfl, rfl, ?_⟩
  intro h
  obtain ⟨t, hget, hne⟩ := h.mp rfl
  have hstored : (run (mountEffect (initialSession ⟨[]⟩ "/login"))
      [.login sampleCredentials (.ok 200 emptyArrayTokenBody)]).localStorage.getItem
        "authToken" = some "" := rfl
  rw [hstored] at hget
  cases hget
  exact hne rfl

/-- C7, amended: in every session reached from the startup check by any sequence
of `handleLogin`, `handleLogout`, `handleSignUp` and `fetchUser` calls, with any
network behaviour in which no login response with status 200 carries a truthy
token whose string form is empty, `isLoggedIn` is true if and only if the store
holds a non-empty token under `authToken`. -/
theorem flagMatchesStore_of_reachable (s0 : Session) (acts : List Action)
    (hok : ∀ user status body token, Action.login user (.ok status body) ∈ acts →
      status = 200 → getProp body "token" = .ok token → truthy token = true →
      toStr token ≠ .ok "") :
    flagMatchesStore (run (mountEffect s0) acts) :=
  run_flagMatchesStore acts (mountEffect s0) (mountEffect_flagMatchesStore s0) hok

/-- The login flag agrees with the store after the sample run of a returning visitor. -/
theorem flagMatchesStore_of_reachable_witness :
    flagMatchesStore (run (mountEffect returningSession) sampleRun) :=
  flagMatchesStore_of_reachable returningSession sampleRun (by
    intro user status body token hmem hstatus hprop _
    simp only [sampleRun, List.mem_cons, List.mem_singleton, Action.login.injEq,
      FetchOutcome.ok.injEq, reduceCtorEq, false_or, or_false, List.not_mem_nil] at hmem
    rcases hmem with ⟨-, h401, -⟩ | ⟨-, -, hbody⟩
    · rw [hstatus] at h401
      exact absurd h401 (by decide)
    · rw [hbody] at hprop
      cases hprop
      intro hstr
      have h2 : (Except.ok "T1" : Except JSError String) = .ok "" := hstr
      injection h2 with h3
      exact absurd h3 (by decide))

/-- C8: for every credentials value and every response (any status, any parsed
body), `handleSignUp` leaves `isLoggedIn` and `localStorage` as they were, sets the
navigation target to `/login` and completes without failing. -/
theorem handleSignUp_keeps_login_state (s : Session) (user : Json) (status : Nat)
    (body : Json) :
    (handleSignUp s user (.ok status body)).state.isLoggedIn = s.isLoggedIn ∧
      (handleSignUp s user (.ok status body)).state.localStorage = s.localStorage ∧
      (handleSignUp s user (.ok status body)).state.location = "/login" ∧
      (handleSignUp s user (.ok status body)).result = .ok none :=
  ⟨rfl, rfl, rfl, rfl⟩

/-- C9: from every session, a second `handleLogout` right after the first
completes without failing and gives the same session (token store, login flag,
user, navigation target, requests) as the first alone. -/
theorem handleLogout_idempotent (s : Session) :
    handleLogout (handleLogout s).state = handleLogout s ∧
      (handleLogout (handleLogout s).state).result = .ok none := by
  refine ⟨?_, rfl⟩
  simp [handleLogout, Storage.removeItem_removeItem]

/-- C10, as stated, fails in two ways. A failed login whose returned body is
`null` (which has no `error` field) leaves the message of the earlier attempt on
display. A failed login whose body has an object as `error` field does not display
that field: React refuses an object as a child and the render fails. -/
theorem handleSubmit_stale_or_failed_render :
    ((handleLogin (initialSession ⟨[]⟩ "/login") staleLoginView.form
        (.ok 401 .null)).result = .ok (some .null) ∧
      (∀ e, getProp Json.null "error" ≠ .ok (some e)) ∧
      renderError (handleSubmit staleLoginView (initialSession ⟨[]⟩ "/login")
        (.ok 401 .null)).view = .ok (some "bad credentials")) ∧
    ((handleLogin (initialSession ⟨[]⟩ "/login") initialLoginView.form
        (.ok 401 objectErrorBody)).result = .ok (some objectErrorBody) ∧
      getProp objectErrorBody "error" =
        .ok (some (.obj [("message", .str "bad credentials")])) ∧
      renderError (handleSubmit initialLoginView (initialSession ⟨[]⟩ "/login")
        (.ok 401 objectErrorBody)).view = .error .invalidChild) := by
  refine ⟨⟨rfl, ?_, rfl⟩, rfl, rfl, rfl⟩
  intro e h
  cases h

/-- C10, amended: when `handleLogin` returns the response body, then for every
prior error message: if the body is truthy, `errorMsg` becomes the body's `error`
field (`undefined` when it has none) and the error line shows what React renders
for it: nothing when the field is falsy (absent, `null`, `false`, zero, the empty
string), the field itself when it is a non-empty string, its text when it is a
non-zero number, an empty line when it is `true`, the texts of its elements when
it is an array, and a failed render when it is an object; if the body is falsy
(`null`, `false`, zero, the empty string), the form state, and with it the
displayed message, is left as it was. -/
theorem handleSubmit_shows_error_field (view : LoginView) (s : Session) (status : Nat)
    (body : Json)
    (hret : (handleLogin s view.form (.ok status body)).result = .ok (some body)) :
    (truthy (some body) = true →
        ∃ msg, getProp body "error" = .ok msg ∧
          (handleSubmit view s (.ok status body)).view.errorMsg = msg ∧
          (truthy msg = false →
            renderError (handleSubmit view s (.ok status body)).view = .ok none) ∧
          (∀ text, msg = some (.str text) → text ≠ "" →
            renderError (handleSubmit view s (.ok status body)).view = .ok (some text)) ∧
          (∀ n, msg = some (.num n) → n.isZero = false →
            renderError (handleSubmit view s (.ok status body)).view = .ok (some n.text)) ∧
          (msg = some (.bool true) →
            renderError (handleSubmit view s (.ok status body)).view = .ok (some "")) ∧
          (∀ items, msg = some (.arr items) →
            renderError (handleSubmit view s (.ok status body)).view =
              match Json.childTextList items with
              | .error e => .error e
              | .ok text => .ok (some text)) ∧
          (∀ members, msg = some (.obj members) →
            renderError (handleSubmit view s (.ok status body)).view =
              .error .invalidChild)) ∧
      (truthy (some body) = false →
        (handleSubmit view s (.ok status body)).view = view) := by
  constructor
  · intro htruthy
    cases herr : getProp body "error" with
    | error e =>
      cases body <;> simp [getProp, truthy] at herr htruthy
    | ok msg =>
      have hview : (handleSubmit view s (.ok status body)).view =
          { view with errorMsg := msg } := by
        simp [handleSubmit, hret, htruthy, herr]
      rw [hview]
      refine ⟨msg, rfl, rfl, ?_, ?_, ?_, ?_, ?_, ?_⟩
      · intro hfalsy
        simp [renderError, hfalsy]
      · intro text hmsg hne
        subst hmsg
        simp [renderError, truthy, hne, Json.childText]
      · intro n hmsg hzero
        subst hmsg
        simp [renderError, truthy, hzero, Json.childText]
      · intro hmsg
        subst hmsg
        simp [renderError, truthy, Json.childText]
      · intro items hmsg
        subst hmsg
        simp [renderError, truthy, Json.childText]
      · intro members hmsg
        subst hmsg
        simp [renderError, truthy, Json.childText]
  · intro hfalsy
    simp [handleSubmit, hret, hfalsy]

/-- The failed login scenario shows `bad credentials`, whatever was shown before. -/
theorem handleSubmit_shows_error_field_witness :
    renderError (handleSubmit staleLoginView (initialSession ⟨[]⟩ "/login")
      (.ok 401 sampleErrorBody)).view = .ok (some "bad credentials") ∧
    renderError (handleSubmit initialLoginView (initialSession ⟨[]⟩ "/login")
      (.ok 401 sampleErrorBody)).view = .ok (some "bad credentials") := by
  constructor
  · obtain ⟨msg, hmsg, -, -, hshow, -⟩ :=
      (handleSubmit_shows_error_field staleLoginView (initialSession ⟨[]⟩ "/login") 401
        sampleErrorBody rfl).1 rfl
    have hfield : getProp sampleErrorBody "error" = .ok (some (.str "bad credentials")) := rfl
    rw [hfield] at hmsg
    cases hmsg
    exact hshow "bad credentials" rfl (by decide)
  · rfl

end Wss
